import Mathlib

/-!
# Verification of the real-time event synchronization layer

Shallow embedding of the client-side synchronization code of the
SystemCrafter UI:

* `src/ui/src/lib/websocket.ts` — the connection hook
  `useProjectWebSocket` (idempotent `connect`, reconnect backoff on
  abnormal close, heartbeat ping interval, frame handling) and the
  standalone `createWebSocketConnection` helper;
* `src/ui/src/app/dashboard/projects/page.tsx` — the reconciler
  `handleWebSocketMessage` that merges server-pushed events into the
  local task/log projection.

Mutable refs (`wsRef`, `reconnectAttempts`, `reconnectTimeoutRef`) and
React `setState` calls are embedded as explicit state records; each
transport callback becomes a pure step function on that state.  JavaScript
truthiness of `x || y` on optional numbers/strings is modelled explicitly
(`0`, `""` and `undefined` are falsy).
-/

namespace SystemCrafter

/-! ## Data model (mirrors the TypeScript interfaces) -/

/-- `Task.status` union from `src/ui/src/lib/api.ts`. -/
inductive TaskStatus
  | queued | running | completed | failed | retrying
deriving DecidableEq, Repr

/-- The fields of `Task` (from `src/ui/src/lib/api.ts`) that the
reconciler reads or writes, plus `name` as a representative field the
handler never touches (all other untouched fields behave identically
under the object-spread updates). -/
structure Task where
  id : String
  status : TaskStatus
  progress : Nat
  error_message : Option String
  name : String
deriving DecidableEq, Repr

/-- `TaskLog` from `src/ui/src/lib/api.ts`. -/
structure TaskLog where
  level : String
  message : String
  timestamp : String
deriving DecidableEq, Repr

/-- The `type` discriminant of `WebSocketMessage` in
`src/ui/src/lib/websocket.ts`. -/
inductive MsgType
  | project_status | task_started | task_progress | task_completed
  | task_failed | artifact_created | log | error
deriving DecidableEq, Repr

/-- The wide optional-field envelope `WebSocketMessage` from
`src/ui/src/lib/websocket.ts` (fields not read by any embedded code are
omitted).  `progress` is a JS number carried as `Nat`; absence
(`undefined`) is `none`. -/
structure WebSocketMessage where
  type : MsgType
  project_id : String
  task_id : Option String
  progress : Option Nat
  error : Option String
  log : Option TaskLog
deriving DecidableEq, Repr

/-! ## JavaScript truthiness helpers -/

/-- JS `x || y` where `x : number | undefined`: both `undefined` and `0`
are falsy, so they fall through to `y`. -/
def jsOrNat : Option Nat → Nat → Nat
  | some p, fallback => if p = 0 then fallback else p
  | none, fallback => fallback

/-- JS `x || null` where `x : string | undefined`: both `undefined` and
`""` are falsy and give `null` (`none`). -/
def jsOrNullStr : Option String → Option String
  | some s => if s = "" then none else some s
  | none => none

/-! ## State Reconciler
(`handleWebSocketMessage`, `src/ui/src/app/dashboard/projects/page.tsx`
lines 161-208) -/

/-- The component state the reconciler mutates: `tasks`, `logs`,
`isGenerating` (three `useState` cells). -/
structure PageState where
  tasks : List Task
  logs : List TaskLog
  isGenerating : Bool
deriving DecidableEq, Repr

/-- The `switch (message.type)` of `handleWebSocketMessage`.  Every task
case maps over the existing `tasks` array, updating the entry whose `id`
equals `message.task_id` (`t.id === message.task_id`); `task_progress`
stores `message.progress || t.progress`; `task_failed` stores
`message.error || null`; `log` appends `message.log` when present; all
other discriminants fall through with no state change
(`refetchArtifacts()` on `task_completed` is an external collaborator
call with no effect on this state). -/
def handleWebSocketMessage (message : WebSocketMessage) (s : PageState) : PageState :=
  match message.type with
  | .task_started =>
      { s with isGenerating := true,
               tasks := s.tasks.map (fun t =>
                 if some t.id = message.task_id then
                   { t with status := .running, progress := 0 }
                 else t) }
  | .task_progress =>
      { s with tasks := s.tasks.map (fun t =>
                 if some t.id = message.task_id then
                   { t with progress := jsOrNat message.progress t.progress }
                 else t) }
  | .task_completed =>
      { s with tasks := s.tasks.map (fun t =>
                 if some t.id = message.task_id then
                   { t with status := .completed, progress := 100 }
                 else t) }
  | .task_failed =>
      { s with isGenerating := false,
               tasks := s.tasks.map (fun t =>
                 if some t.id = message.task_id then
                   { t with status := .failed, error_message := jsOrNullStr message.error }
                 else t) }
  | .log =>
      match message.log with
      | some entry => { s with logs := s.logs ++ [entry] }
      | none => s
  | _ => s

/-! ## Connection Manager
(`useProjectWebSocket`, `src/ui/src/lib/websocket.ts` lines 43-137) -/

/-- Browser `WebSocket.readyState` values relevant to the hook. -/
inductive ReadyState
  | connecting | opened | closing | closed
deriving DecidableEq, Repr

/-- A received frame, as classified by the `onmessage` handler: the
literal `'pong'` control reply, a frame that `JSON.parse`s to the
envelope, or one that fails to parse. -/
inductive Frame
  | pong
  | domain (m : WebSocketMessage)
  | malformed (raw : String)
deriving DecidableEq, Repr

/-- The mutable state of one `useProjectWebSocket` instance:
`projectId`/`token` (closed-over props), `wsState` = `wsRef.current`'s
ready state (`none` = no socket yet), `socketCount` counts
`new WebSocket(...)` constructions, `reconnectAttempts` and
`pendingReconnect` mirror the two refs, `scheduled` records every
reconnect delay ever passed to `setTimeout`, `sentPings` counts `'ping'`
sends, `delivered` records each envelope forwarded to `onMessage`, and
`droppedFrames` counts frames dropped by the parse guard. -/
structure ManagerState where
  projectId : String
  token : String
  wsState : Option ReadyState
  socketCount : Nat
  reconnectAttempts : Nat
  pendingReconnect : Option Nat
  scheduled : List Nat
  sentPings : Nat
  delivered : List WebSocketMessage
  droppedFrames : Nat
deriving DecidableEq, Repr

/-- `maxReconnectAttempts = 5`. -/
def maxReconnectAttempts : Nat := 5

/-- `Math.min(1000 * Math.pow(2, reconnectAttempts.current), 30000)` —
the delay (ms) computed when a reconnect is scheduled with the current
attempt counter. -/
def reconnectDelay (attempts : Nat) : Nat :=
  min (1000 * 2 ^ attempts) 30000

/-- The `connect` callback: returns early when `!projectId || !token`
(empty string is falsy); returns early when a socket exists in
`OPEN`/`CONNECTING` state; otherwise constructs a new `WebSocket` (the
new socket starts in `CONNECTING`). -/
def connect (s : ManagerState) : ManagerState :=
  if s.projectId = "" ∨ s.token = "" then s
  else if s.wsState = some .opened ∨ s.wsState = some .connecting then s
  else { s with wsState := some .connecting, socketCount := s.socketCount + 1 }

/-- `ws.onopen`: the socket becomes `OPEN` and
`reconnectAttempts.current = 0`. -/
def handleOpen (s : ManagerState) : ManagerState :=
  { s with wsState := some .opened, reconnectAttempts := 0 }

/-- `ws.onmessage`: `'pong'` is skipped; a parsed envelope is forwarded
to `onMessage`; a parse failure is logged and dropped.  The handler is a
total function: no exception crosses the consumer boundary. -/
def handleFrame (f : Frame) (s : ManagerState) : ManagerState :=
  match f with
  | .pong => s
  | .domain m => { s with delivered := s.delivered ++ [m] }
  | .malformed _ => { s with droppedFrames := s.droppedFrames + 1 }

/-- `ws.onclose(event)`: the socket is now `CLOSED` (and the `close`
listener clears the heartbeat interval); when `event.code !== 1000` and
`reconnectAttempts.current < maxReconnectAttempts` a reconnect is
scheduled after `reconnectDelay`. -/
def handleClose (code : Nat) (s : ManagerState) : ManagerState :=
  let s := { s with wsState := some ReadyState.closed }
  if code ≠ 1000 ∧ s.reconnectAttempts < maxReconnectAttempts then
    let d := reconnectDelay s.reconnectAttempts
    { s with pendingReconnect := some d, scheduled := s.scheduled ++ [d] }
  else s

/-- The `setTimeout` callback of a scheduled reconnect firing:
`reconnectAttempts.current++` then `connect()`. -/
def fireReconnect (s : ManagerState) : ManagerState :=
  match s.pendingReconnect with
  | some _ =>
      connect { s with pendingReconnect := none,
                       reconnectAttempts := s.reconnectAttempts + 1 }
  | none => s

/-- One tick of the heartbeat `setInterval` (period 15000 ms): sends
`'ping'` when the socket is `OPEN`, otherwise does nothing.  The hook
installs no handling of the reply beyond the `'pong'` skip in
`onmessage`: no deadline, no reply tracking. -/
def heartbeatTick (s : ManagerState) : ManagerState :=
  if s.wsState = some ReadyState.opened then
    { s with sentPings := s.sentPings + 1 }
  else s

/-- The heartbeat interval period from the source, in ms. -/
def heartbeatIntervalMs : Nat := 15000

/-- The externally visible events driving one hook instance. -/
inductive WsEvent
  | callConnect
  | socketOpened
  | message (f : Frame)
  | socketClosed (code : Nat)
  | reconnectTimer
  | heartbeat
deriving DecidableEq, Repr

/-- Dispatch one event to its handler. -/
def step : WsEvent → ManagerState → ManagerState
  | .callConnect => connect
  | .socketOpened => handleOpen
  | .message f => handleFrame f
  | .socketClosed code => handleClose code
  | .reconnectTimer => fireReconnect
  | .heartbeat => heartbeatTick

/-- Apply a sequence of events in arrival order. -/
def run (events : List WsEvent) (s : ManagerState) : ManagerState :=
  events.foldl (fun acc e => step e acc) s

/-- The state of a freshly mounted hook: no socket, zero attempts, no
pending timer. -/
def initialState (pid tok : String) : ManagerState :=
  { projectId := pid, token := tok, wsState := none, socketCount := 0,
    reconnectAttempts := 0, pendingReconnect := none, scheduled := [],
    sentPings := 0, delivered := [], droppedFrames := 0 }

/-! ## Standalone helper
(`createWebSocketConnection`, `src/ui/src/lib/websocket.ts`
lines 143-184) -/

/-- Observable state around one call site of
`createWebSocketConnection`: the socket it returns and what its
installed handlers did.  `scheduled` and `sentPings` exist only to state
that this function never touches them (it installs no reconnect timer
and no heartbeat interval). -/
structure ConnState where
  socketCount : Nat
  wsState : Option ReadyState
  delivered : List WebSocketMessage
  droppedFrames : Nat
  scheduled : List Nat
  sentPings : Nat
deriving DecidableEq, Repr

/-- The body of `createWebSocketConnection`: it unconditionally executes
`new WebSocket(wsUrl)` — there is no guard on an existing open or
connecting socket — and installs the caller's handlers. -/
def createWebSocketConnection (s : ConnState) : ConnState :=
  { s with wsState := some ReadyState.connecting,
           socketCount := s.socketCount + 1 }

/-- The wrapped `onmessage` handler installed by
`createWebSocketConnection` (lines 160-173): identical frame logic to
the hook — skip `'pong'`, forward a parsed envelope, log and drop a
parse failure. -/
def connHandleFrame (f : Frame) (s : ConnState) : ConnState :=
  match f with
  | .pong => s
  | .domain m => { s with delivered := s.delivered ++ [m] }
  | .malformed _ => { s with droppedFrames := s.droppedFrames + 1 }

/-- Event dispatch for a standalone connection.  `onOpen`/`onClose` are
plain passthroughs to the caller's handlers (no reconnect scheduling in
`socketClosed`); `reconnectTimer` and `heartbeat` are identities because
`createWebSocketConnection` installs neither timer. -/
def connStep : WsEvent → ConnState → ConnState
  | .callConnect => createWebSocketConnection
  | .socketOpened => fun s => { s with wsState := some ReadyState.opened }
  | .message f => connHandleFrame f
  | .socketClosed _ => fun s => { s with wsState := some ReadyState.closed }
  | .reconnectTimer => fun s => s
  | .heartbeat => fun s => s

/-- Apply a sequence of events to a standalone connection. -/
def connRun (events : List WsEvent) (s : ConnState) : ConnState :=
  events.foldl (fun acc e => connStep e acc) s

/-- Extract the domain envelope of a `message` event, if any. -/
def domainOf : WsEvent → Option WebSocketMessage
  | .message (.domain m) => some m
  | _ => none

/-- The connection run exercising consecutive reconnects: mount and open,
then six abnormal closures (code 1006), each scheduled reconnect firing
before the next failure. -/
def failureRun : List WsEvent :=
  [.callConnect, .socketOpened,
   .socketClosed 1006, .reconnectTimer,
   .socketClosed 1006, .reconnectTimer,
   .socketClosed 1006, .reconnectTimer,
   .socketClosed 1006, .reconnectTimer,
   .socketClosed 1006, .reconnectTimer,
   .socketClosed 1006]

/-- A run in which the connection opens and two heartbeat intervals
elapse with no `'pong'` (nor any other frame) arriving. -/
def staleRun : List WsEvent :=
  [.callConnect, .socketOpened, .heartbeat, .heartbeat]

/-- A `task_progress` envelope for `tid` carrying `p`. -/
def progressMsg (tid : String) (p : Option Nat) : WebSocketMessage :=
  { type := .task_progress, project_id := "", task_id := some tid,
    progress := p, error := none, log := none }

/-- A sequence of `task_progress` events for `tid` applied in arrival
order by the reconciler. -/
def applyProgressSeq (tid : String) (ps : List (Option Nat)) (s : PageState) :
    PageState :=
  ps.foldl (fun acc p => handleWebSocketMessage (progressMsg tid p) acc) s

/-- The projection invariant of the spec: every task whose status is
`Completed` has progress 100. -/
def completedImpliesFull (tasks : List Task) : Bool :=
  tasks.all (fun t =>
    !(t.status == TaskStatus.completed) || (t.progress == 100))

/-! ## Theorems for the claims -/

/-- C5: starting from an `Open` connection that closes abnormally, the
reconnect delays computed for attempts 1..5 are exactly 1000, 2000,
4000, 8000, 16000 ms — i.e. 1, 2, 4, 8, 16 units of 1000 ms, matching
`min(base * 2^(attempt-1), cap)` with base 1 unit and cap 30 units — and
after the fifth attempt has been consumed, a sixth abnormal closure
schedules no further reconnect (nothing pending, schedule unchanged). -/
theorem spec_C5_backoff_schedule :
    (run failureRun (initialState "p" "tok")).scheduled =
      [1000, 2000, 4000, 8000, 16000] ∧
    ((run failureRun (initialState "p" "tok")).scheduled.map (fun d => d / 1000)) =
      [1, 2, 4, 8, 16] ∧
    (run failureRun (initialState "p" "tok")).pendingReconnect = none ∧
    (run failureRun (initialState "p" "tok")).reconnectAttempts = 5 ∧
    (List.range maxReconnectAttempts).map reconnectDelay =
      [1000, 2000, 4000, 8000, 16000] := by
  decide

/-- C6: `ws.onclose` with the normal-closure code 1000 never schedules a
reconnect (the state change is exactly the socket becoming closed); any
other close code schedules a reconnect with the computed backoff delay
provided the attempt ceiling has not been reached, and schedules nothing
once it has. -/
theorem spec_C6_close_code_policy (s : ManagerState) (code : Nat) :
    (code = 1000 → handleClose code s = { s with wsState := some ReadyState.closed }) ∧
    (code ≠ 1000 → s.reconnectAttempts < maxReconnectAttempts →
      handleClose code s =
        { s with wsState := some ReadyState.closed,
                 pendingReconnect := some (reconnectDelay s.reconnectAttempts),
                 scheduled := s.scheduled ++ [reconnectDelay s.reconnectAttempts] }) ∧
    (code ≠ 1000 → maxReconnectAttempts ≤ s.reconnectAttempts →
      handleClose code s = { s with wsState := some ReadyState.closed }) := by
  refine ⟨fun h => ?_, fun h1 h2 => ?_, fun h1 h2 => ?_⟩
  · subst h
    simp [handleClose]
  · unfold handleClose
    rw [if_pos ⟨h1, h2⟩]
  · unfold handleClose
    rw [if_neg]
    intro hcon
    exact absurd hcon.2 (not_lt.mpr h2)

/-- Witness for C6 at a concrete state: a normal close leaves nothing
scheduled, an abnormal close at attempt counter 0 schedules the first
backoff delay. -/
theorem spec_C6_close_code_policy_witness :
    (handleClose 1000 (initialState "p" "tok") =
      { initialState "p" "tok" with wsState := some ReadyState.closed }) ∧
    (handleClose 1006 (initialState "p" "tok") =
      { initialState "p" "tok" with
          wsState := some ReadyState.closed,
          pendingReconnect :=
            some (reconnectDelay (initialState "p" "tok").reconnectAttempts),
          scheduled := (initialState "p" "tok").scheduled ++
            [reconnectDelay (initialState "p" "tok").reconnectAttempts] }) :=
  ⟨(spec_C6_close_code_policy (initialState "p" "tok") 1000).1 rfl,
   (spec_C6_close_code_policy (initialState "p" "tok") 1006).2.1
     (by decide) (by decide)⟩

/-- C7: idempotent acquire — calling `connect` while the current socket
is `OPEN` or `CONNECTING` is a no-op (state unchanged, so no new
transport connection is constructed); and from a state with no socket
and non-empty credentials, `connect` creates exactly one socket and a
second immediate `connect` changes nothing, leaving exactly one live
connection. -/
theorem spec_C7_idempotent_acquire (s : ManagerState) :
    (s.wsState = some ReadyState.opened ∨ s.wsState = some ReadyState.connecting →
      connect s = s) ∧
    (s.projectId ≠ "" → s.token ≠ "" → s.wsState = none →
      (connect s).wsState = some ReadyState.connecting ∧
      (connect s).socketCount = s.socketCount + 1 ∧
      connect (connect s) = connect s) := by
  constructor
  · intro h
    unfold connect
    by_cases hc : s.projectId = "" ∨ s.token = ""
    · rw [if_pos hc]
    · rw [if_neg hc, if_pos h]
  · intro h1 h2 h3
    have hc : ¬(s.projectId = "" ∨ s.token = "") := by
      rintro (h | h) <;> [exact h1 h; exact h2 h]
    have hg : ¬(s.wsState = some ReadyState.opened ∨
        s.wsState = some ReadyState.connecting) := by
      rw [h3]; rintro (h | h) <;> exact Option.noConfusion h
    have hone : connect s =
        { s with wsState := some ReadyState.connecting,
                 socketCount := s.socketCount + 1 } := by
      unfold connect; rw [if_neg hc, if_neg hg]
    refine ⟨by rw [hone], by rw [hone], ?_⟩
    rw [hone]
    unfold connect
    rw [if_neg hc, if_pos (Or.inr rfl)]

/-- Witness for C7: with a freshly mounted hook (`"p"`, `"tok"`),
calling `connect` twice yields the same single-socket state, and a
further `connect` on an `OPEN` socket is a no-op. -/
theorem spec_C7_idempotent_acquire_witness :
    (connect { initialState "p" "tok" with wsState := some ReadyState.opened } =
      { initialState "p" "tok" with wsState := some ReadyState.opened }) ∧
    connect (connect (initialState "p" "tok")) = connect (initialState "p" "tok") :=
  ⟨(spec_C7_idempotent_acquire
      { initialState "p" "tok" with wsState := some ReadyState.opened }).1
      (Or.inl rfl),
   ((spec_C7_idempotent_acquire (initialState "p" "tok")).2
      (by decide) (by decide) rfl).2.2⟩

/-- C8: frame handling never touches the connection state (socket state,
attempt counter, pending/scheduled reconnects are unchanged by every
frame, so a malformed frame is never fatal); the `'pong'` control reply
is swallowed entirely; a malformed frame is dropped without delivering
anything; only a parsed envelope is forwarded to `onMessage`.
`handleFrame`/`connHandleFrame` are total functions: the `try/catch`
around `JSON.parse` means no exception crosses the consumer boundary.
The same facts hold for the handler installed by
`createWebSocketConnection`. -/
theorem spec_C8_frame_handling (s : ManagerState) (f : Frame) :
    (handleFrame f s).wsState = s.wsState ∧
    (handleFrame f s).reconnectAttempts = s.reconnectAttempts ∧
    (handleFrame f s).pendingReconnect = s.pendingReconnect ∧
    (handleFrame f s).scheduled = s.scheduled ∧
    (handleFrame f s).socketCount = s.socketCount ∧
    handleFrame Frame.pong s = s ∧
    (∀ raw, (handleFrame (Frame.malformed raw) s).delivered = s.delivered) ∧
    (∀ m, (handleFrame (Frame.domain m) s).delivered = s.delivered ++ [m]) ∧
    (∀ c : ConnState, connHandleFrame Frame.pong c = c ∧
      (∀ raw, (connHandleFrame (Frame.malformed raw) c).delivered = c.delivered) ∧
      (∀ m, (connHandleFrame (Frame.domain m) c).delivered = c.delivered ++ [m])) := by
  cases f <;> simp [handleFrame, connHandleFrame]

/-- Each standalone-connection event leaves `scheduled` untouched: no
handler of `createWebSocketConnection` ever schedules a reconnect. -/
lemma connStep_scheduled (e : WsEvent) (c : ConnState) :
    (connStep e c).scheduled = c.scheduled := by
  cases e with
  | message f => cases f <;> rfl
  | _ => rfl

/-- Each standalone-connection event leaves `sentPings` untouched: no
heartbeat probe is ever sent. -/
lemma connStep_sentPings (e : WsEvent) (c : ConnState) :
    (connStep e c).sentPings = c.sentPings := by
  cases e with
  | message f => cases f <;> rfl
  | _ => rfl

/-- Each standalone-connection event appends to `delivered` exactly the
domain envelope it carries, if any. -/
lemma connStep_delivered (e : WsEvent) (c : ConnState) :
    (connStep e c).delivered = c.delivered ++ (domainOf e).toList := by
  cases e with
  | message f => cases f <;> simp [connStep, connHandleFrame, domainOf]
  | _ => simp [connStep, createWebSocketConnection, domainOf]

/-- `connRun` never grows the reconnect schedule. -/
lemma connRun_scheduled (events : List WsEvent) (c : ConnState) :
    (connRun events c).scheduled = c.scheduled := by
  induction events generalizing c with
  | nil => rfl
  | cons e es ih =>
      show (connRun es (connStep e c)).scheduled = c.scheduled
      rw [ih, connStep_scheduled]

/-- `connRun` never sends a heartbeat probe. -/
lemma connRun_sentPings (events : List WsEvent) (c : ConnState) :
    (connRun events c).sentPings = c.sentPings := by
  induction events generalizing c with
  | nil => rfl
  | cons e es ih =>
      show (connRun es (connStep e c)).sentPings = c.sentPings
      rw [ih, connStep_sentPings]

/-- `connRun` delivers exactly the domain envelopes of the event
sequence, in order. -/
lemma connRun_delivered (events : List WsEvent) (c : ConnState) :
    (connRun events c).delivered = c.delivered ++ events.filterMap domainOf := by
  induction events generalizing c with
  | nil => simp [connRun]
  | cons e es ih =>
      show (connRun es (connStep e c)).delivered = _
      rw [ih, connStep_delivered]
      cases h : domainOf e <;> simp [h, List.filterMap_cons]

/-- C10: `createWebSocketConnection` constructs a new transport
connection on every call, with no guard on the pre-existing socket state
(even when a socket is already `OPEN` or `CONNECTING`); over any event
sequence it never schedules a reconnect or backoff timer and never sends
a heartbeat probe; and the envelopes delivered to `onMessage` are
exactly the domain frames — `'pong'` frames (and unparseable frames) are
dropped, which is its only control-plane handling. -/
theorem spec_C10_create_unguarded (c : ConnState) (events : List WsEvent) :
    (createWebSocketConnection c).socketCount = c.socketCount + 1 ∧
    (createWebSocketConnection c).wsState = some ReadyState.connecting ∧
    ((createWebSocketConnection
        { c with wsState := some ReadyState.opened }).socketCount =
      c.socketCount + 1) ∧
    (connRun events c).scheduled = c.scheduled ∧
    (connRun events c).sentPings = c.sentPings ∧
    (connRun events c).delivered = c.delivered ++ events.filterMap domainOf :=
  ⟨rfl, rfl, rfl, connRun_scheduled events c, connRun_sentPings events c,
   connRun_delivered events c⟩

/-- Counterexample to C2: mount the hook, let the socket open, and let
two full heartbeat intervals elapse with no `'pong'` (two probes sent,
no reply observed).  The claim requires a forced transition out of
`Open` into `Reconnecting(1)`; the code leaves the connection `OPEN`
with attempt counter 0, nothing pending and nothing ever scheduled — it
contains no liveness-timeout transition at all. -/
theorem spec_C2_counterexample :
    (run staleRun (initialState "p" "tok")).sentPings = 2 ∧
    (run staleRun (initialState "p" "tok")).wsState = some ReadyState.opened ∧
    (run staleRun (initialState "p" "tok")).reconnectAttempts = 0 ∧
    (run staleRun (initialState "p" "tok")).pendingReconnect = none ∧
    (run staleRun (initialState "p" "tok")).scheduled = [] := by
  decide

/-- C2 (amended): while `Open` the hook sends a `'ping'` probe each
heartbeat interval (15000 ms), but it does not track replies: a
heartbeat tick changes nothing but the count of probes sent, a `'pong'`
frame changes nothing at all, and in particular neither ever moves the
connection out of `Open`, bumps the attempt counter, or schedules a
reconnect — stale-connection detection is left entirely to the
transport's own close event. -/
theorem spec_C2_no_liveness_timeout (s : ManagerState) :
    { heartbeatTick s with sentPings := s.sentPings } = s ∧
    handleFrame Frame.pong s = s ∧
    (heartbeatTick s).wsState = s.wsState ∧
    (heartbeatTick s).reconnectAttempts = s.reconnectAttempts ∧
    (heartbeatTick s).pendingReconnect = s.pendingReconnect ∧
    (heartbeatTick s).scheduled = s.scheduled ∧
    heartbeatIntervalMs = 15000 := by
  unfold heartbeatTick handleFrame
  split <;> simp [heartbeatIntervalMs]

/-! ## Reconciler theorems -/

/-- Counterexample to C1: a task with stored progress 40 receives a
`task_progress` event carrying 30.  The claim requires the stored
progress to remain 40 (maximum seen so far; a lower value ignored); the
code stores `message.progress || t.progress` and the result is 30. -/
theorem spec_C1_counterexample :
    (handleWebSocketMessage (progressMsg "t1" (some 30))
        { tasks := [{ id := "t1", status := .running, progress := 40,
                      error_message := none, name := "analyze" }],
          logs := [], isGenerating := true }).tasks.map Task.progress = [30] ∧
    (30 : Nat) ≠ 40 := by
  decide

/-- C1 (amended): for every sequence of `task_progress` events applied
in arrival order to a task, the stored progress is the last-write fold
of JS truthiness: each event whose `progress` is present and non-zero
overwrites the stored value (so a later lower value is applied, not
ignored, and no clamping to the maximum seen occurs); an absent or zero
`progress` leaves the stored value unchanged. -/
theorem spec_C1_progress_last_write (t : Task) (ps : List (Option Nat))
    (l : List TaskLog) (g : Bool) :
    (applyProgressSeq t.id ps { tasks := [t], logs := l, isGenerating := g }).tasks =
      [{ t with progress := ps.foldl (fun cur p => jsOrNat p cur) t.progress }] := by
  induction ps generalizing t with
  | nil => rfl
  | cons p ps ih =>
      have hstep : handleWebSocketMessage (progressMsg t.id p)
          { tasks := [t], logs := l, isGenerating := g } =
          { tasks := [{ t with progress := jsOrNat p t.progress }],
            logs := l, isGenerating := g } := by
        simp [handleWebSocketMessage, progressMsg]
      show (applyProgressSeq t.id ps (handleWebSocketMessage (progressMsg t.id p)
          { tasks := [t], logs := l, isGenerating := g })).tasks = _
      rw [hstep]
      exact ih { t with progress := jsOrNat p t.progress }

/-- Counterexample to C3: a `task_started` (and a `task_progress`) event
for taskId `"t1"`, which has no entry in the projection, leaves the
projection empty — no entry is created.  The claim requires an upsert
creating an entry for `"t1"`. -/
theorem spec_C3_counterexample :
    (handleWebSocketMessage
        { type := .task_started, project_id := "p", task_id := some "t1",
          progress := none, error := none, log := none }
        { tasks := [], logs := [], isGenerating := false }).tasks = [] ∧
    (handleWebSocketMessage (progressMsg "t1" (some 50))
        { tasks := [], logs := [], isGenerating := false }).tasks = [] := by
  decide

/-- C3 (amended): the reconciler updates existing entries only — it maps
over the current task array and performs no upsert, so every event whose
taskId has no entry in the projection (and every event of any other
type) leaves the task projection exactly unchanged. -/
theorem spec_C3_no_upsert (msg : WebSocketMessage) (s : PageState)
    (h : ∀ t ∈ s.tasks, some t.id ≠ msg.task_id) :
    (handleWebSocketMessage msg s).tasks = s.tasks := by
  obtain ⟨ty, pid, tid, prog, err, lg⟩ := msg
  obtain ⟨ts, ls, g⟩ := s
  cases ty <;> try rfl
  case log => cases lg <;> rfl
  all_goals
    show List.map _ ts = ts
  all_goals
    induction ts with
    | nil => rfl
    | cons t rest ih =>
        rw [List.map_cons, if_neg (h t (List.mem_cons_self t rest)),
          ih (fun u hu => h u (List.mem_cons_of_mem t hu))]

/-- Witness for C3: a projection holding only task `"t2"` is unchanged
by a `task_started` event for `"t1"`. -/
theorem spec_C3_no_upsert_witness :
    (handleWebSocketMessage
        { type := .task_started, project_id := "p", task_id := some "t1",
          progress := none, error := none, log := none }
        { tasks := [{ id := "t2", status := .queued, progress := 0,
                      error_message := none, name := "design" }],
          logs := [], isGenerating := false }).tasks =
      [{ id := "t2", status := .queued, progress := 0,
         error_message := none, name := "design" }] :=
  spec_C3_no_upsert _ _ (by decide)

/-- Counterexample to C4: a projection holding one `Completed` task with
progress 100 satisfies the invariant; a single `task_progress` event
carrying 50 for that task overwrites its progress while leaving its
status `Completed`, breaking the invariant — so the predicate is not
preserved by every single event. -/
theorem spec_C4_counterexample :
    completedImpliesFull
      [{ id := "t1", status := .completed, progress := 100,
         error_message := none, name := "gen" }] = true ∧
    completedImpliesFull
      ((handleWebSocketMessage (progressMsg "t1" (some 50))
        { tasks := [{ id := "t1", status := .completed, progress := 100,
                      error_message := none, name := "gen" }],
          logs := [], isGenerating := false }).tasks) = false := by
  decide

/-- C4 (amended): the invariant `status = Completed → progress = 100` is
preserved by every event type except `task_progress` (which can lower a
completed task's stored progress while leaving its status `Completed`),
and a `task_completed` event always leaves the matching task with status
`Completed` and progress 100 regardless of its prior stored progress. -/
theorem spec_C4_invariant_except_progress (msg : WebSocketMessage) (s : PageState) :
    (msg.type ≠ MsgType.task_progress → completedImpliesFull s.tasks = true →
      completedImpliesFull (handleWebSocketMessage msg s).tasks = true) ∧
    (msg.type = MsgType.task_completed →
      ∀ t ∈ (handleWebSocketMessage msg s).tasks, some t.id = msg.task_id →
        t.status = TaskStatus.completed ∧ t.progress = 100) := by
  obtain ⟨ty, pid, tid, prog, err, lg⟩ := msg
  obtain ⟨ts, ls, g⟩ := s
  constructor
  · intro hty hinv
    cases ty
    case task_progress => exact absurd rfl hty
    case log =>
        cases lg
        · exact hinv
        · exact hinv
    case project_status => exact hinv
    case artifact_created => exact hinv
    case error => exact hinv
    case task_started =>
      simp only [completedImpliesFull, List.all_eq_true] at hinv ⊢
      intro t' ht'
      obtain ⟨t0, ht0, rfl⟩ := List.mem_map.1 ht'
      by_cases hg : some t0.id = tid
      · rw [if_pos hg]; simp
      · rw [if_neg hg]; exact hinv t0 ht0
    case task_completed =>
      simp only [completedImpliesFull, List.all_eq_true] at hinv ⊢
      intro t' ht'
      obtain ⟨t0, ht0, rfl⟩ := List.mem_map.1 ht'
      by_cases hg : some t0.id = tid
      · rw [if_pos hg]; simp
      · rw [if_neg hg]; exact hinv t0 ht0
    case task_failed =>
      simp only [completedImpliesFull, List.all_eq_true] at hinv ⊢
      intro t' ht'
      obtain ⟨t0, ht0, rfl⟩ := List.mem_map.1 ht'
      by_cases hg : some t0.id = tid
      · rw [if_pos hg]; simp
      · rw [if_neg hg]; exact hinv t0 ht0
  · intro hty
    cases hty
    intro t ht hid
    obtain ⟨t0, ht0, rfl⟩ := List.mem_map.1 ht
    by_cases hg : some t0.id = tid
    · rw [if_pos hg]
      exact ⟨rfl, rfl⟩
    · rw [if_neg hg] at hid
      exact absurd hid hg

/-- Witness for C4 at concrete inputs: a `task_completed` event applied
to a running task with progress 40 keeps the invariant (the task ends
`Completed` at 100). -/
theorem spec_C4_invariant_except_progress_witness :
    completedImpliesFull
      ((handleWebSocketMessage
        { type := .task_completed, project_id := "p", task_id := some "t1",
          progress := none, error := none, log := none }
        { tasks := [{ id := "t1", status := .running, progress := 40,
                      error_message := none, name := "gen" }],
          logs := [], isGenerating := true }).tasks) = true :=
  (spec_C4_invariant_except_progress
    { type := .task_completed, project_id := "p", task_id := some "t1",
      progress := none, error := none, log := none }
    { tasks := [{ id := "t1", status := .running, progress := 40,
                  error_message := none, name := "gen" }],
      logs := [], isGenerating := true }).1 (by decide) (by decide)

/-- Within a `task_failed` update, every task's stored progress is
untouched, matched or not. -/
lemma map_progress_failed (tid : Option String) (em : Option String)
    (l : List Task) :
    (l.map (fun t =>
      if some t.id = tid then
        { t with status := TaskStatus.failed, error_message := em }
      else t)).map Task.progress = l.map Task.progress := by
  induction l with
  | nil => rfl
  | cons t l ih =>
      by_cases hg : some t.id = tid <;> simp [hg, ih]

/-- Counterexample to C9: a `task_failed` event whose incoming error
text is the empty string.  The claim requires the stored `errorText` to
be the incoming text `""`; the code stores `message.error || null`,
which for the falsy `""` is `null` (`none`), not `some ""`. -/
theorem spec_C9_counterexample :
    (handleWebSocketMessage
        { type := .task_failed, project_id := "p", task_id := some "t1",
          progress := none, error := some "", log := none }
        { tasks := [{ id := "t1", status := .running, progress := 40,
                      error_message := some "old", name := "gen" }],
          logs := [], isGenerating := true }).tasks.map Task.error_message =
      [none] ∧
    (none : Option String) ≠ some "" := by
  decide

/-- C9 (amended): a `task_failed` event never changes any task's stored
progress and leaves every non-matching task entirely unchanged; the
matching task gets status `Failed` and `errorText` set to
`message.error || null` — the incoming error text when it is present and
non-empty, and `null` when it is absent or empty. -/
theorem spec_C9_task_failed_effect (msg : WebSocketMessage) (s : PageState)
    (h : msg.type = MsgType.task_failed) :
    (handleWebSocketMessage msg s).tasks.map Task.progress =
      s.tasks.map Task.progress ∧
    (handleWebSocketMessage msg s).tasks =
      s.tasks.map (fun t =>
        if some t.id = msg.task_id then
          { t with status := TaskStatus.failed,
                   error_message := jsOrNullStr msg.error }
        else t) ∧
    jsOrNullStr (some "boom") = some "boom" ∧
    jsOrNullStr (some "") = none ∧
    jsOrNullStr none = none := by
  obtain ⟨ty, pid, tid, prog, err, lg⟩ := msg
  cases h
  exact ⟨map_progress_failed tid (jsOrNullStr err) s.tasks, rfl,
    by decide, by decide, rfl⟩

/-- Witness for C9 at a concrete input: failing task `"t1"` (stored
progress 40) with error text `"boom"` leaves the progress column `[40]`
unchanged. -/
theorem spec_C9_task_failed_effect_witness :
    (handleWebSocketMessage
        { type := .task_failed, project_id := "p", task_id := some "t1",
          progress := none, error := some "boom", log := none }
        { tasks := [{ id := "t1", status := .running, progress := 40,
                      error_message := none, name := "gen" }],
          logs := [], isGenerating := true }).tasks.map Task.progress =
      ({ tasks := [{ id := "t1", status := .running, progress := 40,
                     error_message := none, name := "gen" }],
         logs := [], isGenerating := true } : PageState).tasks.map Task.progress ∧
    ({ tasks := [{ id := "t1", status := .running, progress := 40,
                   error_message := none, name := "gen" }],
       logs := [], isGenerating := true } : PageState).tasks.map Task.progress =
      [40] :=
  ⟨(spec_C9_task_failed_effect
      { type := .task_failed, project_id := "p", task_id := some "t1",
        progress := none, error := some "boom", log := none }
      { tasks := [{ id := "t1", status := .running, progress := 40,
                    error_message := none, name := "gen" }],
        logs := [], isGenerating := true } rfl).1,
   by decide⟩

end SystemCrafter
